import Mathlib

/-!
Verification of the feedback-lifecycle backend (poem review workflow).

The Python sources under `backend/app` are shallowly embedded: Python
strings become `String`/`List Char` (Python `str.lower` is modelled
character-wise via `Char.toLower`), the regular expressions of
`mock_ai.py` become a small backtracking matcher over an explicit
pattern AST, the SQLAlchemy entities become structures collected in a
`World` record, and each router handler becomes a pure function
`World → Except ApiError (World × result)`; an `HTTPException` raised
before `db.commit()` leaves the world unchanged.  Floats (the
`confidence` column) are not modelled: no verified property mentions
them.
-/

namespace Feedback

/-! ## Python string primitives (on `List Char`) -/

/-- Python `str.lower`, modelled character-wise via `Char.toLower`
(which lowercases exactly the ASCII range in this toolchain).  Exact
for ASCII text; every place this development applies it outside the
offset resolver evaluates it on ASCII input. -/
def lowerL (s : List Char) : List Char := s.map Char.toLower

/-- Python `str.lower` on `String` (ASCII view, as `lowerL`). -/
def lowerS (s : String) : String := String.mk (lowerL s.data)

/-- Python `str.lower` for one character, as a character *list*: unlike
any character-wise map, Python lowercasing can change a string's
length.  Exact on ASCII and on U+0130 (`'İ'`, whose Python lowercase is
the two characters "i" plus combining dot above), the one
length-changing character this development evaluates; other non-ASCII
characters are left unchanged (a partial model of the Unicode table). -/
def pyLowerChar (c : Char) : List Char :=
  if c = 'İ' then ['i', '\u0307'] else [c.toLower]

/-- Python `str.lower` on a character list, length changes included. -/
def pyLowerL (s : List Char) : List Char := (s.map pyLowerChar).flatten

/-- Python `str.find`: index of the leftmost occurrence of `pat` in `s`,
`none` standing for Python's `-1`. -/
def pyFind (s pat : List Char) : Option Nat :=
  if pat.isPrefixOf s then some 0
  else
    match s with
    | [] => none
    | _ :: t => (pyFind t pat).map (· + 1)

/-- Python `needle in haystack` for strings. -/
def containsSub (haystack needle : String) : Bool :=
  (pyFind haystack.data needle.data).isSome

/-- Python slice `t[i:j]`. -/
def sliceL (t : List Char) (i j : Nat) : List Char := (t.drop i).take (j - i)

theorem pyFind_some_spec (s pat : List Char) (i : Nat) :
    pyFind s pat = some i →
      pat.isPrefixOf (s.drop i) = true ∧
      ∀ j, j < i → pat.isPrefixOf (s.drop j) = false := by
  induction s generalizing i with
  | nil =>
    intro h
    rw [pyFind] at h
    cases hp : pat.isPrefixOf ([] : List Char) with
    | true =>
      simp [hp] at h
      subst h
      exact ⟨hp, fun j hj => absurd hj (Nat.not_lt_zero j)⟩
    | false => simp [hp] at h
  | cons c t ih =>
    intro h
    rw [pyFind] at h
    cases hp : pat.isPrefixOf (c :: t) with
    | true =>
      simp [hp] at h
      subst h
      exact ⟨hp, fun j hj => absurd hj (Nat.not_lt_zero j)⟩
    | false =>
      simp [hp] at h
      obtain ⟨i', hi', rfl⟩ := h
      obtain ⟨h1, h2⟩ := ih i' hi'
      refine ⟨h1, fun j hj => ?_⟩
      cases j with
      | zero => simpa using hp
      | succ j' =>
        have : j' < i' := Nat.lt_of_succ_lt_succ hj
        simpa using h2 j' this

theorem pyFind_none_spec (s pat : List Char) :
    pyFind s pat = none → ∀ j, pat.isPrefixOf (s.drop j) = false := by
  induction s with
  | nil =>
    intro h j
    rw [pyFind] at h
    cases hp : pat.isPrefixOf ([] : List Char) with
    | true => simp [hp] at h
    | false => simpa [List.drop_nil] using hp
  | cons c t ih =>
    intro h j
    rw [pyFind] at h
    cases hp : pat.isPrefixOf (c :: t) with
    | true => simp [hp] at h
    | false =>
      simp [hp] at h
      cases j with
      | zero => simpa using hp
      | succ j' => simpa using ih h j'

theorem no_occurrence_of_pyFind_none (t s : List Char) (h : pyFind t s = none) :
    ¬ ∃ i, s.isPrefixOf (t.drop i) = true := by
  rintro ⟨i, hi⟩
  have := pyFind_none_spec t s h i
  rw [hi] at this
  exact Bool.noConfusion this

theorem isPrefixOf_map (f : Char → Char) (pat l : List Char)
    (h : pat.isPrefixOf l = true) : (pat.map f).isPrefixOf (l.map f) = true := by
  rw [List.isPrefixOf_iff_prefix] at h ⊢
  exact h.map f

theorem lowerL_take (t : List Char) (n : Nat) :
    lowerL (t.take n) = (lowerL t).take n := by
  simp [lowerL, List.map_take]

theorem lowerL_drop (t : List Char) (n : Nat) :
    lowerL (t.drop n) = (lowerL t).drop n := by
  simp [lowerL, List.map_drop]

theorem lowerL_length (t : List Char) : (lowerL t).length = t.length := by
  simp [lowerL]

/-! ## The Text Offset Resolver (`calculate_text_offsets`, ai_interviewer.py) -/

/-- The shape of `calculate_text_offsets`, parameterized by the
lowercasing function: exact `str.find` first, then a retry over the
lowered texts, returning `(start, start + len(highlighted_text))` with
`start` an index into the *lowered* poem; `None` if both fail. -/
def resolveOffsetsWith (lower : List Char → List Char)
    (poem_text highlighted_text : List Char) : Option (Nat × Nat) :=
  match pyFind poem_text highlighted_text with
  | some start => some (start, start + highlighted_text.length)
  | none =>
    match pyFind (lower poem_text) (lower highlighted_text) with
    | some start => some (start, start + highlighted_text.length)
    | none => none

/-- `calculate_text_offsets(poem_text, highlighted_text)` of
`services/ai_interviewer.py`, with Python `str.lower` modelled by
`pyLowerL`.  The case-insensitive branch finds the match inside the
lowered poem, and Python lowercasing can change lengths, so the
returned offsets need not be valid positions of the original text. -/
def calculate_text_offsets (poem_text highlighted_text : List Char) :
    Option (Nat × Nat) :=
  resolveOffsetsWith pyLowerL poem_text highlighted_text

theorem slice_eq_of_isPrefixOf (t s : List Char) (k : Nat)
    (h : s.isPrefixOf (t.drop k) = true) : sliceL t k (k + s.length) = s := by
  rw [List.isPrefixOf_iff_prefix] at h
  rw [sliceL, Nat.add_sub_cancel_left]
  exact (List.prefix_iff_eq_take.mp h).symm

theorem isPrefixOf_of_slice_eq (t s : List Char) (k : Nat)
    (h : sliceL t k (k + s.length) = s) : s.isPrefixOf (t.drop k) = true := by
  rw [sliceL, Nat.add_sub_cancel_left] at h
  rw [List.isPrefixOf_iff_prefix, List.prefix_iff_eq_take]
  exact h.symm

/-! ## More Python string utilities -/

/-- Python `\w` (ASCII view). -/
def isWordChar (c : Char) : Bool := c.isAlphanum || c == '_'

/-- Python whitespace: what `str.split()` splits on and `\s` matches
(ASCII view). -/
def isSpaceChar (c : Char) : Bool :=
  c == ' ' || c == '\t' || c == '\n' || c == '\r' || c == '\x0b' || c == '\x0c'

/-- Count of leading characters satisfying `p`. -/
def leadingCount (p : Char → Bool) : List Char → Nat
  | [] => 0
  | c :: t => if p c then leadingCount p t + 1 else 0

/-- Python `str.split()` with no separator: split on whitespace runs,
dropping empty pieces.  The accumulator holds the current word reversed. -/
def pySplitWsAux : List Char → List Char → List String
  | [], cur => if cur.isEmpty then [] else [String.mk cur.reverse]
  | c :: t, cur =>
    if isSpaceChar c then
      if cur.isEmpty then pySplitWsAux t []
      else String.mk cur.reverse :: pySplitWsAux t []
    else pySplitWsAux t (c :: cur)

def pySplitWs (s : String) : List String := pySplitWsAux s.data []

/-- Python `str.strip()` with no argument. -/
def trimPy (s : String) : String :=
  String.mk (((s.data.dropWhile isSpaceChar).reverse.dropWhile isSpaceChar).reverse)

/-- Python `s.replace(old, new)` (all non-overlapping occurrences, left to
right); every call site in the sources passes a non-empty `old`, for which
this is exact.  Fuel bounds the recursion. -/
def replaceAllAux (old new : List Char) : Nat → List Char → List Char
  | 0, s => s
  | fuel+1, s =>
    if old.isPrefixOf s then new ++ replaceAllAux old new fuel (s.drop old.length)
    else
      match s with
      | [] => []
      | c :: t => c :: replaceAllAux old new fuel t

def replaceAll (s old new : String) : String :=
  if old.data.isEmpty then s
  else String.mk (replaceAllAux old.data new.data (s.data.length + 1) s.data)

/-- `re.sub(re.escape(word), new, s, flags=re.IGNORECASE)`: replace all
non-overlapping case-insensitive occurrences of the literal `word`.  Every
call site that could pass an empty `word` passes `new = ""` as well, so
returning `s` there is exact. -/
def subCIAux (word new : List Char) : Nat → List Char → List Char
  | 0, s => s
  | fuel+1, s =>
    if (lowerL word).isPrefixOf (lowerL s) then
      new ++ subCIAux word new fuel (s.drop word.length)
    else
      match s with
      | [] => []
      | c :: t => c :: subCIAux word new fuel t

def subCI (word new s : String) : String :=
  if word.data.isEmpty then s
  else String.mk (subCIAux word.data new.data (s.data.length + 1) s.data)

/-- Python `repr` of a string, as `str(list_of_str)` shows each element:
single quotes unless the text holds a single quote and no double quote;
backslashes, the chosen quote, and the common control characters escaped. -/
def pyReprStr (s : String) : String :=
  let hasSq := s.data.contains '\''
  let hasDq := s.data.contains '"'
  let q := if hasSq && !hasDq then '"' else '\''
  let esc := s.data.foldr (fun c acc =>
    if c == '\\' then '\\' :: '\\' :: acc
    else if c == q then '\\' :: c :: acc
    else if c == '\n' then '\\' :: 'n' :: acc
    else if c == '\t' then '\\' :: 't' :: acc
    else if c == '\r' then '\\' :: 'r' :: acc
    else c :: acc) []
  String.mk (q :: esc ++ [q])

/-- Python `str(list_of_str)`. -/
def pyReprList (l : List String) : String :=
  "[" ++ String.intercalate ", " (l.map pyReprStr) ++ "]"

/-- Python `list(set(xs))`.  A set's iteration order is unspecified in
Python; it is modelled as first-occurrence order (every use in the
sources is order-insensitive or reaches this with at most one element). -/
def pySetList (l : List String) : List String :=
  l.foldl (fun acc x => if acc.contains x then acc else acc ++ [x]) []

/-- Python `list(dict.fromkeys(xs))`: deduplicate keeping first-occurrence
order (this one is specified). -/
def dedupKeepFirst (l : List String) : List String :=
  l.foldl (fun acc x => if acc.contains x then acc else acc ++ [x]) []

/-! ## A small regex engine

The lexical patterns of `mock_ai.py` use a fixed repertoire: literals,
`(?:...)?` groups, alternation, `['\"]` classes, greedy `\w+` / `\s+`,
lazy `.*?`, and exactly one capture group per pattern.  `RE` is that
repertoire; `matchRE` is a backtracking matcher in continuation-passing
style with Python `re` semantics (alternatives tried left to right,
`?`/`+` greedy, `*?` lazy). -/

inductive RE where
  | lit : List Char → RE
  | cat : RE → RE → RE
  | alt : RE → RE → RE
  | opt : RE → RE
  | wplus : RE
  | splus : RE
  | dotstarLazy : RE
  | grp : RE → RE

/-- Greedy one-or-more: try consuming `n`, `n-1`, …, `1` characters. -/
def tryDesc (k : List Char → Option (List Char) → Option α)
    (s : List Char) (cap : Option (List Char)) : Nat → Option α
  | 0 => none
  | n+1 => (k (s.drop (n+1)) cap) <|> tryDesc k s cap n

/-- Lazy zero-or-more: try consuming `off`, `off+1`, …, `off+budget`
characters. -/
def tryAsc (k : List Char → Option (List Char) → Option α)
    (s : List Char) (cap : Option (List Char)) (off : Nat) : Nat → Option α
  | 0 => k (s.drop off) cap
  | n+1 => (k (s.drop off) cap) <|> tryAsc k s cap (off+1) n

/-- The matcher: `matchRE r s cap k` attempts to match `r` at the head of
`s` and passes the rest and the capture to the continuation `k`. -/
def matchRE : RE → List Char → Option (List Char) →
    (List Char → Option (List Char) → Option α) → Option α
  | .lit p, s, cap, k => if p.isPrefixOf s then k (s.drop p.length) cap else none
  | .cat r1 r2, s, cap, k => matchRE r1 s cap (fun s1 c1 => matchRE r2 s1 c1 k)
  | .alt r1 r2, s, cap, k => (matchRE r1 s cap k) <|> (matchRE r2 s cap k)
  | .opt r, s, cap, k => (matchRE r s cap k) <|> k s cap
  | .wplus, s, cap, k => tryDesc k s cap (leadingCount isWordChar s)
  | .splus, s, cap, k => tryDesc k s cap (leadingCount isSpaceChar s)
  | .dotstarLazy, s, cap, k =>
      tryAsc k s cap 0 (leadingCount (fun c => !(c == '\n')) s)
  | .grp r, s, cap, k =>
      matchRE r s cap (fun s1 _ => k s1 (some (s.take (s.length - s1.length))))

/-- Anchored match attempt: the capture group and the characters consumed. -/
def tryMatch (r : RE) (s : List Char) : Option (List Char × Nat) :=
  matchRE r s none (fun rest cap => some (cap.getD [], s.length - rest.length))

/-- `re.findall` with one capture group: scan left to right,
non-overlapping, advancing one character past a zero-width match. -/
def reFindallAux (r : RE) : Nat → List Char → List (List Char)
  | 0, _ => []
  | fuel+1, s =>
    match tryMatch r s with
    | some (cap, consumed) =>
      if consumed == 0 then
        cap :: (match s with | [] => [] | _ :: t => reFindallAux r fuel t)
      else cap :: reFindallAux r fuel (s.drop consumed)
    | none => match s with | [] => [] | _ :: t => reFindallAux r fuel t

def reFindall (r : RE) (s : List Char) : List (List Char) :=
  reFindallAux r (s.length + 1) s

/-- `re.search` with one capture group: leftmost match, returning the
captured group. -/
def reSearch (r : RE) : List Char → Option (List Char)
  | [] => (tryMatch r []).map (fun p => p.1)
  | c :: t =>
    match tryMatch r (c :: t) with
    | some (cap, _) => some cap
    | none => reSearch r t

def reStr (s : String) : RE := .lit s.data

/-- The character class `['\"]?`. -/
def reQuoteOpt : RE := .opt (.alt (reStr "'") (reStr "\""))

def reCats (l : List RE) : RE := l.foldr .cat (.lit [])

/-! ## mock_ai.py: the mechanical (offline) Revision Engine -/

/-- The shared tail `(?:the )?(?:word )?['\"]?(\w+)['\"]?` of the first
six forbidden-word patterns of `extract_forbidden_words`. -/
def forbiddenTail : RE :=
  reCats [.opt (reStr "the "), .opt (reStr "word "), reQuoteOpt, .grp .wplus,
    reQuoteOpt]

/-- The eight lexical patterns of `extract_forbidden_words`
(mock_ai.py lines 148-157), in source order. -/
def forbiddenPatterns : List RE :=
  [ .cat (reStr "never use ") forbiddenTail,
    reCats [reStr "don", .opt (reStr "'"), reStr "t use ", forbiddenTail],
    .cat (reStr "remove ") forbiddenTail,
    .cat (reStr "delete ") forbiddenTail,
    .cat (reStr "avoid ") forbiddenTail,
    .cat (reStr "get rid of ") forbiddenTail,
    reCats [.alt (reStr "word ") (reStr "phrase "), reQuoteOpt, .grp .wplus,
      reQuoteOpt, reStr " ",
      .opt (.alt (reStr "is ") (.alt (reStr "should be ") (reStr "needs to be "))),
      .alt (reStr "removed") (.alt (reStr "deleted")
        (.alt (reStr "avoided") (reStr "forbidden")))],
    reCats [.alt (reStr "'") (reStr "\""), .grp .wplus, reQuoteOpt, reStr " ",
      .opt (.alt (reStr "is ") (reStr "should be ")),
      .alt (reStr "too ") (.alt (reStr "overused") (.alt (reStr "cliche")
        (.alt (reStr "forbidden") (reStr "banned"))))] ]

/-- `extract_forbidden_words(text)` of mock_ai.py: run every pattern's
`findall` over the lowered text and return `list(set(...))`. -/
def extract_forbidden_words (text : String) : List String :=
  let text_lower := lowerS text
  let found := forbiddenPatterns.foldl
    (fun acc p => acc ++ (reFindall p text_lower.data).map (fun l => String.mk l)) []
  pySetList found

/-- The replacement table of `find_replacement` (mock_ai.py lines 171-211). -/
def replacementTable : List (String × String) :=
  [ ("heartbeats", "breaths"), ("heartbeat", "breath"), ("heart", "chest"),
    ("hearts", "chests"), ("moments", "breaths"), ("moment", "breath"),
    ("soul", "self"), ("souls", "selves"), ("beautiful", "striking"),
    ("beauty", "grace"), ("love", "longing"), ("loved", "held dear"),
    ("silence", "stillness"), ("silent", "still"), ("sacred", "rare"),
    ("ordinary", "common"), ("eternal", "lasting"), ("eternity", "long years"),
    ("forever", "always"), ("dream", "vision"), ("dreams", "visions"),
    ("magical", "strange"), ("magic", "wonder"), ("perfect", "whole"),
    ("perfection", "wholeness"), ("infinite", "vast"), ("infinity", "vastness"),
    ("destiny", "path"), ("fate", "chance"), ("tears", "salt water"),
    ("tear", "drop"), ("cry", "weep"), ("crying", "weeping"),
    ("quiet", "still"), ("soft", "gentle"), ("dark", "dim"),
    ("light", "glow"), ("time", "hours"), ("space", "distance") ]

/-- `find_replacement(word)`: table lookup on the lowered word, default
the empty string. -/
def find_replacement (word : String) : String :=
  (((replacementTable.find? (fun p => p.1 == lowerS word)).map
    (fun p => p.2)).getD "")

/-- The `(?:change|replace).*?(?:to|with)\s+["\']?(\w+(?:\s+\w+)?)["\']?`
pattern of the change/replace branch (mock_ai.py line 283). -/
def changeRE : RE :=
  reCats [.alt (reStr "change") (reStr "replace"), .dotstarLazy,
    .alt (reStr "to") (reStr "with"), .splus,
    .opt (.alt (reStr "\"") (reStr "'")),
    .grp (.cat .wplus (.opt (.cat .splus .wplus))),
    .opt (.alt (reStr "\"") (reStr "'"))]

/-- An inline comment as `generate_mock_revision` receives it: the dict
`{"highlighted_text": ..., "comment": ...}` built by `process_feedback`. -/
structure MockComment where
  highlighted_text : String
  comment : String
deriving DecidableEq, Repr

/-- The mutable locals of `generate_mock_revision`, threaded through its
loops. -/
structure RevState where
  revised : String
  guide : List String
  applied : List String
deriving DecidableEq, Repr

def removePhrases : List String := ["remove", "delete", "get rid", "take out", "cut"]

def activeWords : List String := ["active", "energy", "dynamic", "movement", "stronger"]

def activeRepl : List (String × String) :=
  [("quiet", "intent"), ("still", "poised"), ("waits", "watches"),
   ("spills", "strikes"), ("unfolds", "pulses"), ("soft", "keen"),
   ("small", "sharp")]

def concreteWords : List String :=
  ["concrete", "specific", "detail", "sensory", "vivid", "vague"]

def concreteRepl : List (String × String) :=
  [("form", "silhouette"), ("presence", "shadow"), ("moment", "breath"),
   ("gesture", "movement")]

def clicheWords : List String := ["cliche", "overused", "tired", "generic", "trite"]

/-- The body of the `for comment in comments` loop of
`generate_mock_revision` (mock_ai.py lines 239-355), one comment. -/
def processComment (st : RevState) (c : MockComment) : RevState :=
  let highlighted := c.highlighted_text
  let feedback_text := lowerS c.comment
  if highlighted == "" then st
  else
    let comment_forbidden := extract_forbidden_words feedback_text
    if comment_forbidden ≠ [] then
      comment_forbidden.foldl (fun st word =>
        if containsSub (lowerS st.revised) (lowerS word) then
          let replacement := find_replacement word
          { st with
            revised := subCI word replacement st.revised,
            applied := st.applied ++
              ["Removed '" ++ word ++ "' → replaced with '" ++ replacement ++ "'"],
            guide := st.guide ++ ["- Never use the word \"" ++ word ++ "\""] }
        else st) st
    else if removePhrases.any (fun p => containsSub feedback_text p) then
      let words_in_highlight := pySplitWs highlighted
      if words_in_highlight.length ≤ 3 then
        words_in_highlight.foldl (fun st word =>
          if word.length > 3 then
            let replacement := find_replacement word
            { st with
              revised := subCI word replacement st.revised,
              applied := st.applied ++
                ["Removed '" ++ word ++ "' → '" ++ replacement ++ "'"],
              guide := st.guide ++ ["- Avoid the word \"" ++ word ++ "\""] }
          else st) st
      else
        let shortened := String.intercalate " " (words_in_highlight.take 2) ++ "—"
        { st with
          revised := replaceAll st.revised highlighted shortened,
          applied := st.applied ++ ["Shortened '" ++ highlighted ++ "'"] }
    else if containsSub feedback_text "change" || containsSub feedback_text "replace" then
      match reSearch changeRE feedback_text.data with
      | some g =>
        let new_text := String.mk g
        { st with
          revised := replaceAll st.revised highlighted new_text,
          applied := st.applied ++
            ["Changed '" ++ highlighted ++ "' → '" ++ new_text ++ "'"] }
      | none =>
        let replacement :=
          match pySplitWs highlighted with
          | [] => "..."
          | w :: _ => find_replacement w
        { st with
          revised := replaceAll st.revised highlighted replacement,
          applied := st.applied ++ ["Replaced '" ++ highlighted ++ "'"] }
    else if activeWords.any (fun wd => containsSub feedback_text wd) then
      let st1 :=
        match activeRepl.find? (fun p => containsSub (lowerS highlighted) p.1) with
        | some (old, new) =>
          let new_highlighted := subCI old new highlighted
          { st with
            revised := replaceAll st.revised highlighted new_highlighted,
            applied := st.applied ++
              ["Made '" ++ highlighted ++ "' more active → '" ++ new_highlighted ++ "'"] }
        | none =>
          { st with
            revised := replaceAll st.revised highlighted (highlighted ++ ", alive"),
            applied := st.applied ++ ["Added energy to '" ++ highlighted ++ "'"] }
      { st1 with guide := st1.guide ++ ["- Use active verbs and dynamic imagery"] }
    else if concreteWords.any (fun wd => containsSub feedback_text wd) then
      let st1 :=
        match concreteRepl.find? (fun p => containsSub (lowerS highlighted) p.1) with
        | some (old, new) =>
          let new_highlighted := subCI old new highlighted
          { st with
            revised := replaceAll st.revised highlighted new_highlighted,
            applied := st.applied ++
              ["Made '" ++ highlighted ++ "' more concrete → '" ++ new_highlighted ++ "'"] }
        | none =>
          { st with applied := st.applied ++
            ["Reviewed '" ++ highlighted ++ "' for concreteness"] }
      { st1 with guide := st1.guide ++
        ["- Ground abstract ideas in physical, sensory details"] }
    else if clicheWords.any (fun wd => containsSub feedback_text wd) then
      let main_word :=
        match pySplitWs highlighted with
        | [] => highlighted
        | w :: _ => w
      let replacement := find_replacement main_word
      let st1 :=
        if replacement ≠ "[" ++ main_word ++ "]" then
          { st with
            revised := subCI main_word replacement st.revised,
            applied := st.applied ++
              ["Replaced cliche '" ++ main_word ++ "' → '" ++ replacement ++ "'"] }
        else
          { st with applied := st.applied ++ ["Flagged '" ++ highlighted ++ "' as cliche"] }
      { st1 with guide := st1.guide ++
        ["- Avoid cliched words like \"" ++ main_word ++ "\""] }
    else
      { st with applied := st.applied ++
        ["Reviewed '" ++ highlighted ++ "' based on feedback: " ++
          String.mk (c.comment.data.take 50)] }

/-- The result dict of `generate_mock_revision` / `generate_revision`. -/
structure RevisionData where
  revised_poem : String
  proposed_guide_changes : Option String
  rationale : String
deriving DecidableEq, Repr

/-- `generate_mock_revision(original_poem, feedback, comments, guide)` of
mock_ai.py (the mechanical Revision Engine; `guide` is unused in the
source as well). -/
def generate_mock_revision (original_poem feedback : String)
    (comments : List MockComment) (guide : String) : RevisionData :=
  let all_feedback_text := comments.foldl
    (fun acc c => acc ++ " " ++ c.comment ++ " " ++ c.highlighted_text) feedback
  let forbidden_words := extract_forbidden_words all_feedback_text
  let st0 : RevState := ⟨original_poem, [], []⟩
  let st1 := comments.foldl processComment st0
  let st2 := forbidden_words.foldl (fun st word =>
    if containsSub (lowerS st.revised) (lowerS word) then
      let replacement := find_replacement word
      let newPoem := subCI word replacement st.revised
      if newPoem ≠ st.revised then
        { st with
          revised := newPoem,
          applied := st.applied ++
            ["Removed forbidden word '" ++ word ++ "' → '" ++ replacement ++ "'"],
          guide := st.guide ++ ["- Never use the word \"" ++ word ++ "\""] }
      else { st with revised := newPoem }
    else st) st1
  let st3 :=
    if feedback ≠ "" then
      let feedback_lower := lowerS feedback
      let overall_forbidden := extract_forbidden_words feedback
      let sta := overall_forbidden.foldl (fun st word =>
        if containsSub (lowerS st.revised) (lowerS word) then
          let replacement := find_replacement word
          let newPoem := subCI word replacement st.revised
          let marker := "Removed forbidden word '" ++ word ++ "'"
          if ¬ (containsSub (pyReprList st.applied) marker = true) then
            { st with
              revised := newPoem,
              applied := st.applied ++
                ["Removed '" ++ word ++ "' per overall feedback → '" ++ replacement ++ "'"],
              guide := st.guide ++ ["- Never use the word \"" ++ word ++ "\""] }
          else { st with revised := newPoem }
        else st) st2
      let stb :=
        if containsSub feedback_lower "energy" || containsSub feedback_lower "dynamic" then
          { sta with guide := sta.guide ++
            ["- Build energy through active verbs and punctuation"] }
        else sta
      if containsSub feedback_lower "shorter" || containsSub feedback_lower "concise" then
        let lines := (stb.revised.splitOn "\n").filter (fun l => trimPy l ≠ "")
        let stb1 :=
          if lines.length > 6 then
            { stb with
              revised := String.intercalate "\n" (lines.take 6),
              applied := stb.applied ++ ["Trimmed poem for conciseness"] }
          else stb
        { stb1 with guide := stb1.guide ++
          ["- Prefer brevity; cut lines that don't earn their place"] }
      else stb
    else st2
  let proposed :=
    if st3.guide ≠ [] then
      some ("## SME Feedback Rules\n" ++
        String.intercalate "\n" (dedupKeepFirst st3.guide))
    else none
  let rationale :=
    if st3.applied ≠ [] then
      "Based on SME feedback, the following changes were made:\n" ++
        String.intercalate "\n" (st3.applied.map (fun c => "• " ++ c)) ++
        (if proposed.isSome then
          "\n\nThe proposed guide changes will prevent similar issues in future poems."
        else "")
    else
      "Feedback was reviewed but no direct changes could be applied. The guide updates reflect the SME's preferences."
  ⟨st3.revised, proposed, rationale⟩

example : extract_forbidden_words "never use the word heartbeat" = ["heartbeat"] := by decide

example : find_replacement "heartbeat" = "breath" := by decide

example :
    (generate_mock_revision "The heartbeat of the city" ""
      [⟨"heartbeat", "never use the word heartbeat"⟩] "").revised_poem =
    "The breath of the city" := by decide

/-! ## mock_ai_interviewer.py: the fallback (offline) extractor -/

inductive MessageRole where
  | sme
  | ai
deriving DecidableEq, Repr

/-- One entry of `AIInterviewer.conversation_history`. -/
structure MsgEntry where
  role : MessageRole
  content : String
deriving DecidableEq, Repr

inductive FeedbackType where
  | inline_comment
  | overall
  | guide_suggestion
  | rating
deriving DecidableEq, Repr

/-- An item of an `extracted_items` list (`confidence`, a float, is not
modelled: no verified property mentions it). -/
structure ExtractedItem where
  feedback_type : FeedbackType
  content : String
  highlighted_text : Option String := none
  start_offset : Option Int := none
  end_offset : Option Int := none
deriving DecidableEq, Repr

/-- The dict `generate_mock_response` returns. -/
structure MockResponse where
  follow_up_question : String
  extracted_items : List ExtractedItem
  is_complete : Bool
deriving DecidableEq, Repr

/-- The closed completion vocabulary (mock_ai_interviewer.py lines 28-31). -/
def completion_signals : List String :=
  ["that's all", "i'm done", "nothing else", "that's it",
   "all done", "finished", "no more", "that's everything"]

def turn1_keywords : List String := ["line", "phrase", "word", "part", "section"]

def overall_keywords : List String := ["overall", "general", "whole", "entire"]

def rule_keywords : List String := ["never", "don't", "avoid", "rule", "should"]

def followup_questions : List String :=
  ["Is there anything else about this poem that concerns you?",
   "How would you rate this poem overall on a scale of 1-5?",
   "Any other thoughts or suggestions?",
   "What would you say is the main thing that needs improvement?"]

/-- Python `lst[i]` with negative indexing (every reachable index of the
source is in range). -/
def pyIndex (l : List String) (i : Int) : String :=
  if i < 0 then l.getD ((l.length : Int) + i).toNat "" else l.getD i.toNat ""

/-- `generate_mock_response(sme_message, conversation_history, poem_content)`
of mock_ai_interviewer.py: the deterministic fallback extractor for one
conversational turn. -/
def generate_mock_response (sme_message : String)
    (conversation_history : List MsgEntry) (poem_content : String) :
    MockResponse :=
  let turn := (conversation_history.filter (fun m => m.role == MessageRole.sme)).length
  let message_lower := lowerS sme_message
  let is_complete := completion_signals.any (fun sig => containsSub message_lower sig)
  if turn = 1 then
    let items1 : List ExtractedItem :=
      if turn1_keywords.any (fun wd => containsSub message_lower wd) then
        let first_line :=
          if poem_content ≠ "" then (poem_content.splitOn "\n").headD ""
          else "sample text"
        [{ feedback_type := .inline_comment,
           content := "[Mock] SME mentioned: " ++
             String.mk (sme_message.data.take 50) ++ "...",
           highlighted_text := some first_line,
           start_offset := some 0,
           end_offset := some (first_line.length : Int) }]
      else []
    let items2 : List ExtractedItem :=
      if overall_keywords.any (fun wd => containsSub message_lower wd) then
        items1 ++
          [{ feedback_type := .overall,
             content := "[Mock] Overall observation: " ++
               String.mk (sme_message.data.take 100) }]
      else items1
    { follow_up_question := "That's helpful! Can you tell me more specifically which parts of the poem stood out to you? Are there specific words or phrases that don't work?",
      extracted_items := items2,
      is_complete := false }
  else if turn = 2 then
    let items1 : List ExtractedItem :=
      if containsSub message_lower "line" || containsSub message_lower "word" then
        let lines := poem_content.splitOn "\n"
        if lines.length > 1 then
          let second_line := (lines.getD 1 "")
          let off := (lines.getD 0 "").length + 1
          [{ feedback_type := .inline_comment,
             content := "[Mock] Issue with this section: " ++
               String.mk (sme_message.data.take 50),
             highlighted_text := some second_line,
             start_offset := some (off : Int),
             end_offset := some ((off + second_line.length : Nat) : Int) }]
        else []
      else []
    let items2 : List ExtractedItem :=
      if rule_keywords.any (fun wd => containsSub message_lower wd) then
        items1 ++
          [{ feedback_type := .guide_suggestion,
             content := "[Mock] Suggested rule based on feedback: " ++
               String.mk (sme_message.data.take 80) }]
      else items1
    { follow_up_question := "Good points. Based on what you're seeing, are there any rules you think should be added to the poetry guide to prevent similar issues in the future?",
      extracted_items := items2,
      is_complete := false }
  else
    let items : List ExtractedItem :=
      match [1, 2, 3, 4, 5].find? (fun i => containsSub sme_message (toString i)) with
      | some i =>
        [{ feedback_type := .rating,
           content := "Rating: " ++ toString i ++ "/5" }]
      | none => []
    if is_complete then
      { follow_up_question := "Thank you for your feedback! I've captured everything you mentioned. You can now review the summary and confirm which items to include.",
        extracted_items := items,
        is_complete := true }
    else
      let idx : Int := min ((turn : Int) - 3) ((followup_questions.length : Int) - 1)
      { follow_up_question := pyIndex followup_questions idx,
        extracted_items := items,
        is_complete := false }

example :
    (generate_mock_response "that's all and that is it"
      [⟨.sme, "a"⟩, ⟨.ai, "b"⟩, ⟨.sme, "c"⟩, ⟨.sme, "that's all"⟩] "p").is_complete
    = true := by decide

/-! ## JSON parsing (`json.loads` and the response-parsing stages)

`jsonLoads` models `json.loads` on the JSON subset the capabilities emit:
null, booleans, integer numbers, strings (with the common escapes), arrays
and objects; a parse failure is `none`, Python's `json.JSONDecodeError`. -/

inductive Json where
  | null
  | bool (b : Bool)
  | num (n : Int)
  | str (s : String)
  | arr (xs : List Json)
  | obj (kvs : List (String × Json))

/-- JSON whitespace. -/
def skipWs (s : List Char) : List Char :=
  s.dropWhile (fun c => c == ' ' || c == '\t' || c == '\n' || c == '\r')

/-- String body parser, after the opening quote; the accumulator is
reversed. -/
def parseJStrAux : Nat → List Char → List Char → Option (List Char × List Char)
  | 0, _, _ => none
  | fuel+1, acc, s =>
    match s with
    | [] => none
    | c :: t =>
      if c == '"' then some (acc.reverse, t)
      else if c == '\\' then
        match t with
        | [] => none
        | e :: t2 =>
          let d := if e == 'n' then '\n'
            else if e == 't' then '\t'
            else if e == 'r' then '\r'
            else e
          parseJStrAux fuel (d :: acc) t2
      else parseJStrAux fuel (c :: acc) t

/-- Digit-run parser: value and rest. -/
def parseDigits : List Char → Nat → (Nat × List Char)
  | [], acc => (acc, [])
  | c :: t, acc =>
    if c.isDigit then parseDigits t (acc * 10 + (c.toNat - 48))
    else (acc, c :: t)

mutual

def parseJsonVal : Nat → List Char → Option (Json × List Char)
  | 0, _ => none
  | fuel+1, s0 =>
    let s := skipWs s0
    match s with
    | [] => none
    | c :: t =>
      if c == '"' then
        (parseJStrAux (t.length + 1) [] t).map
          (fun p => (Json.str (String.mk p.1), p.2))
      else if c == '[' then
        match skipWs t with
        | ']' :: t2 => some (Json.arr [], t2)
        | t2 => parseJsonArrElems fuel t2 []
      else if c == '{' then
        match skipWs t with
        | '}' :: t2 => some (Json.obj [], t2)
        | t2 => parseJsonObjItems fuel t2 []
      else if c == 't' then
        if ("rue".data).isPrefixOf t then some (Json.bool true, t.drop 3) else none
      else if c == 'f' then
        if ("alse".data).isPrefixOf t then some (Json.bool false, t.drop 4) else none
      else if c == 'n' then
        if ("ull".data).isPrefixOf t then some (Json.null, t.drop 3) else none
      else if c == '-' then
        match t with
        | d :: _ =>
          if d.isDigit then
            let (n, rest) := parseDigits t 0
            some (Json.num (-(n : Int)), rest)
          else none
        | [] => none
      else if c.isDigit then
        let (n, rest) := parseDigits s 0
        some (Json.num (n : Int), rest)
      else none

def parseJsonArrElems : Nat → List Char → List Json → Option (Json × List Char)
  | 0, _, _ => none
  | fuel+1, s, acc =>
    match parseJsonVal fuel s with
    | none => none
    | some (v, rest) =>
      match skipWs rest with
      | ',' :: t => parseJsonArrElems fuel (skipWs t) (v :: acc)
      | ']' :: t => some (Json.arr (v :: acc).reverse, t)
      | _ => none

def parseJsonObjItems : Nat → List Char →
    List (String × Json) → Option (Json × List Char)
  | 0, _, _ => none
  | fuel+1, s, acc =>
    match s with
    | '"' :: t =>
      match parseJStrAux (t.length + 1) [] t with
      | none => none
      | some (key, rest) =>
        match skipWs rest with
        | ':' :: t2 =>
          match parseJsonVal fuel (skipWs t2) with
          | none => none
          | some (v, rest2) =>
            match skipWs rest2 with
            | ',' :: t3 => parseJsonObjItems fuel (skipWs t3)
                ((String.mk key, v) :: acc)
            | '}' :: t3 => some (Json.obj ((String.mk key, v) :: acc).reverse, t3)
            | _ => none
        | _ => none
    | _ => none

end

/-- `json.loads`: parse a whole document, requiring only trailing
whitespace after the value. -/
def jsonLoads (s : String) : Option Json :=
  match parseJsonVal (s.data.length + 1) s.data with
  | some (v, rest) => if (skipWs rest).isEmpty then some v else none
  | none => none

/-- The one Python exception the post-parse fix-up stages can raise. -/
inductive PyErr where
  | typeError
deriving DecidableEq, Repr

/-- Python `key in result` as the post-parse checks run it: dict key
lookup; list membership (a string compares equal only to an equal string
element); substring test on a string; a `TypeError` for the remaining
JSON values (`argument of type 'int' is not iterable`). -/
def jsonKeyMem (j : Json) (key : String) : Except PyErr Bool :=
  match j with
  | .obj kvs => .ok (kvs.any (fun kv => kv.1 == key))
  | .arr xs => .ok (xs.any (fun x =>
      match x with
      | .str s => s == key
      | _ => false))
  | .str s => .ok (containsSub s key)
  | _ => .error .typeError

/-- Python `result[key] = v`: works on a dict, raises `TypeError` on any
other JSON value (`list indices must be integers or slices, not str`). -/
def jsonSetKey (j : Json) (key : String) (v : Json) : Except PyErr Json :=
  match j with
  | .obj kvs =>
    if kvs.any (fun kv => kv.1 == key) then
      .ok (.obj (kvs.map (fun kv => if kv.1 == key then (kv.1, v) else kv)))
    else .ok (.obj (kvs ++ [(key, v)]))
  | _ => .error .typeError

/-- `if key not in result: result[key] = default`. -/
def jsonEnsureKey (j : Json) (key : String) (default : Json) :
    Except PyErr Json := do
  let b ← jsonKeyMem j key
  if b then pure j else jsonSetKey j key default

/-- The markdown-fence stripping both parsers share
(`ai_reviser.py` lines 87-90, `ai_interviewer.py` lines 308-311). -/
def stripCodeFences (response_text : String) : String :=
  if containsSub response_text "```json" then
    (((response_text.splitOn "```json").getD 1 "").splitOn "```").headD ""
  else if containsSub response_text "```" then
    (((response_text.splitOn "```").getD 1 "").splitOn "```").headD ""
  else response_text

/-- The response-parsing stage of `generate_revision` (ai_reviser.py
lines 85-111): strip fences, `json.loads`, fill the three default fields.
Only `json.JSONDecodeError` is caught (yielding the safe-default dict
whose rationale states that parsing failed; the Python message carries
the decoder's text, modelled by its fixed prefix); any other exception —
notably the `TypeError` from `result["revised_poem"] = ...` when the
parsed JSON is not an object — propagates out of `generate_revision`. -/
def generate_revision_parse (original_poem response_text : String) :
    Except PyErr Json :=
  let cleaned := stripCodeFences response_text
  match jsonLoads (trimPy cleaned) with
  | none =>
    .ok (.obj [("revised_poem", .str original_poem),
               ("proposed_guide_changes", .null),
               ("rationale", .str "Failed to parse AI response")])
  | some result => do
    let r1 ← jsonEnsureKey result "revised_poem" (.str original_poem)
    let r2 ← jsonEnsureKey r1 "proposed_guide_changes" .null
    let r3 ← jsonEnsureKey r2 "rationale"
      (.str "Changes applied based on SME feedback.")
    pure r3

/-- `AIInterviewer._parse_json_response` (ai_interviewer.py lines
304-332): same shape, extractor field names, and again only
`json.JSONDecodeError` caught. -/
def parse_json_response (response_text : String) : Except PyErr Json :=
  let cleaned := stripCodeFences response_text
  match jsonLoads (trimPy cleaned) with
  | none =>
    .ok (.obj [("follow_up_question", .str "Could you elaborate on that?"),
               ("extracted_items", .arr []),
               ("is_complete", .bool false)])
  | some result => do
    let r1 ← jsonEnsureKey result "follow_up_question"
      (.str "Could you tell me more?")
    let r2 ← jsonEnsureKey r1 "extracted_items" (.arr [])
    let r3 ← jsonEnsureKey r2 "is_complete" (.bool false)
    pure r3

/-- The `except Exception` wrapper of `AIInterviewer.get_response`
(ai_interviewer.py lines 135-168) around the parsing stage: any raise
becomes the fixed fallback reply with an empty extraction list. -/
def interviewer_handle_response (response_text : String) : Json :=
  match parse_json_response response_text with
  | .ok j => j
  | .error _ =>
    .obj [("follow_up_question", .str "Could you tell me more about that?"),
          ("extracted_items", .arr []),
          ("is_complete", .bool false)]

example : generate_revision_parse "poem" "[1]" = .error PyErr.typeError := rfl

example : generate_revision_parse "poem" "not json" =
    .ok (.obj [("revised_poem", .str "poem"),
               ("proposed_guide_changes", .null),
               ("rationale", .str "Failed to parse AI response")]) := rfl

/-! ## The persisted entities (models.py) and the router handlers

Each handler of `routers/feedback.py`, `routers/voice_feedback.py` and
`routers/revisions.py` becomes a pure function over a `World` (the
database rows plus the guide file); raising an `HTTPException` before
`db.commit()` is returning `.error` with the world untouched.  Timestamps
and audio paths play no role in any verified property; the audio path of
a comment is kept, the `created_at` columns are dropped.  Generation runs
in offline mode (`settings.use_mock_ai` is true without an API key), so
`generate_revision` is `generate_mock_revision`. -/

inductive PoemStatus where
  | draft
  | under_review
  | revised
  | accepted
deriving DecidableEq, Repr

inductive FeedbackStatus where
  | in_progress
  | submitted
  | processed
deriving DecidableEq, Repr

inductive VoiceSessionStatus where
  | active
  | completed
  | cancelled
deriving DecidableEq, Repr

inductive ConfirmationStatus where
  | pending
  | confirmed
  | rejected
deriving DecidableEq, Repr

structure Poem where
  id : Nat
  prompt : String
  content : String
  guide_version : Nat
  status : PoemStatus
deriving DecidableEq, Repr

structure FeedbackSession where
  id : Nat
  poem_id : Nat
  overall_feedback : Option String
  rating : Option Int
  status : FeedbackStatus
deriving DecidableEq, Repr

structure InlineComment where
  id : Nat
  session_id : Nat
  highlighted_text : String
  start_offset : Int
  end_offset : Int
  comment : String
  comment_audio_path : Option String
deriving DecidableEq, Repr

structure Revision where
  id : Nat
  session_id : Nat
  original_poem_id : Nat
  revised_poem : String
  proposed_guide_changes : Option String
  rationale : Option String
  poem_accepted : Int
  guide_changes_accepted : Int
deriving DecidableEq, Repr

structure VoiceFeedbackSession where
  id : Nat
  feedback_session_id : Nat
  status : VoiceSessionStatus
deriving DecidableEq, Repr

structure ExtractedFeedback where
  id : Nat
  voice_session_id : Nat
  feedback_type : FeedbackType
  content : String
  highlighted_text : Option String
  start_offset : Option Int
  end_offset : Option Int
  confirmation_status : ConfirmationStatus
deriving DecidableEq, Repr

structure GuideVersion where
  id : Nat
  content : String
  version : Nat
  change_summary : Option String
deriving DecidableEq, Repr

structure World where
  poems : List Poem
  sessions : List FeedbackSession
  comments : List InlineComment
  voiceSessions : List VoiceFeedbackSession
  extracted : List ExtractedFeedback
  revisions : List Revision
  guides : List GuideVersion
  guideFile : String
  nextId : Nat
deriving DecidableEq, Repr

/-- `HTTPException`s the handlers raise (status 404 / 400). -/
inductive ApiError where
  | notFound (detail : String)
  | badRequest (detail : String)
deriving DecidableEq, Repr

/-- Update the first element satisfying `p` (the ORM mutates the one row
a lookup returned). -/
def updateFirst (l : List α) (p : α → Bool) (f : α → α) : List α :=
  match l with
  | [] => []
  | x :: t => if p x then f x :: t else x :: updateFirst t p f

/-- `InlineCommentCreate` (schemas.py lines 50-55): a plain data schema —
pydantic validates only the field types, no offset bounds. -/
structure InlineCommentCreate where
  highlighted_text : String
  start_offset : Int
  end_offset : Int
  comment : String
  audio_path : Option String := none
deriving DecidableEq, Repr

/-- `add_comment` (feedback.py lines 214-244): 404 when the session is
missing, 400 unless it is `in_progress`, otherwise insert the row as
given — the handler performs no offset validation. -/
def add_comment (session_id : Nat) (c : InlineCommentCreate) (w : World) :
    Except ApiError (World × InlineComment) :=
  match w.sessions.find? (fun s => s.id == session_id) with
  | none => .error (.notFound "Session not found")
  | some session =>
    if session.status ≠ FeedbackStatus.in_progress then
      .error (.badRequest "Cannot add comments to submitted session")
    else
      let inline_comment : InlineComment :=
        { id := w.nextId, session_id := session_id,
          highlighted_text := c.highlighted_text,
          start_offset := c.start_offset, end_offset := c.end_offset,
          comment := c.comment, comment_audio_path := c.audio_path }
      .ok ({ w with
             comments := w.comments ++ [inline_comment],
             nextId := w.nextId + 1 }, inline_comment)

/-- `submit_feedback` (feedback.py lines 300-320). -/
def submit_feedback (session_id : Nat) (w : World) :
    Except ApiError (World × FeedbackSession) :=
  match w.sessions.find? (fun s => s.id == session_id) with
  | none => .error (.notFound "Session not found")
  | some session =>
    if session.status ≠ FeedbackStatus.in_progress then
      .error (.badRequest "Session already submitted")
    else
      .ok ({ w with
             sessions := updateFirst w.sessions (fun s => s.id == session_id)
               (fun s => { s with status := FeedbackStatus.submitted }) },
           { session with status := FeedbackStatus.submitted })

/-- `get_guide_version` (guide_service.py lines 66-71). -/
def get_guide_version (w : World) (version : Nat) : Option GuideVersion :=
  w.guides.find? (fun g => g.version == version)

/-- `process_feedback` (feedback.py lines 323-384): requires a
`submitted` session; returns an existing Revision unchanged; otherwise
generates via the (offline) Revision Engine, inserts the row and moves
the session to `processed`.  The poem row is present in any world the
app can build (`poem_id` is a non-null foreign key); its absence is
modelled as a 404. -/
def process_feedback (session_id : Nat) (w : World) :
    Except ApiError (World × Revision) :=
  match w.sessions.find? (fun s => s.id == session_id) with
  | none => .error (.notFound "Session not found")
  | some session =>
    if session.status ≠ FeedbackStatus.submitted then
      .error (.badRequest "Session must be submitted first")
    else
      match w.revisions.find? (fun r => r.session_id == session.id) with
      | some rev => .ok (w, rev)
      | none =>
        match w.poems.find? (fun p => p.id == session.poem_id) with
        | none => .error (.notFound "Poem row missing")
        | some poem =>
          let guide_content :=
            match get_guide_version w poem.guide_version with
            | some gv => gv.content
            | none => ""
          let comments_data :=
            (w.comments.filter (fun c => c.session_id == session.id)).map
              (fun c => MockComment.mk c.highlighted_text c.comment)
          let revision_data := generate_mock_revision poem.content
            (session.overall_feedback.getD "") comments_data guide_content
          let revision : Revision :=
            { id := w.nextId, session_id := session_id,
              original_poem_id := poem.id,
              revised_poem := revision_data.revised_poem,
              proposed_guide_changes := revision_data.proposed_guide_changes,
              rationale := some revision_data.rationale,
              poem_accepted := 0, guide_changes_accepted := 0 }
          .ok ({ w with
                 revisions := w.revisions ++ [revision],
                 sessions := updateFirst w.sessions (fun s => s.id == session_id)
                   (fun s => { s with status := FeedbackStatus.processed }),
                 nextId := w.nextId + 1 }, revision)

/-- `ConfirmFeedbackRequest` (schemas.py lines 158-160). -/
structure ConfirmFeedbackRequest where
  confirmed_ids : List Nat
  rejected_ids : List Nat
deriving DecidableEq, Repr

/-- The response dict of `confirm_feedback`. -/
structure ConfirmResult where
  feedback_session_id : Nat
  inline_comments_created : Nat
deriving DecidableEq, Repr

/-- `re.findall(r'\d+', s)` turned into numbers, in order. -/
def digitRunsAux : List Char → Option Nat → List Nat
  | [], none => []
  | [], some n => [n]
  | c :: t, acc =>
    if c.isDigit then
      digitRunsAux t (some ((acc.getD 0) * 10 + (c.toNat - 48)))
    else
      match acc with
      | none => digitRunsAux t none
      | some n => n :: digitRunsAux t none

def digitRuns (s : String) : List Nat := digitRunsAux s.data none

/-- The locals the `for item_id in request.confirmed_ids` loop of
`confirm_feedback` threads. -/
structure ConfirmState where
  extracted : List ExtractedFeedback
  comments : List InlineComment
  nextId : Nat
  overall_parts : List String
  guide_parts : List String
  rating_value : Option Int
deriving DecidableEq, Repr

/-- One step of the rejected-ids loop (voice_feedback.py lines 334-337):
the first of the session's items with the id, if any, becomes
`rejected`; an unmatched id is skipped.  The source scans the session's
relationship list for the first item with the id; that list is the
id-ordered rows with this `voice_session_id`, so the scan is the first
item satisfying the conjunction. -/
def rejectStep (vsid : Nat) (extracted : List ExtractedFeedback)
    (item_id : Nat) : List ExtractedFeedback :=
  match extracted.find?
      (fun it => it.voice_session_id == vsid && it.id == item_id) with
  | none => extracted
  | some _ =>
    updateFirst extracted (fun it => it.voice_session_id == vsid && it.id == item_id)
      (fun it => { it with confirmation_status := ConfirmationStatus.rejected })

/-- One step of the confirmed-ids loop (voice_feedback.py lines
344-378): an unmatched id is skipped (`continue`); a matched item is
marked `confirmed` and folded by category — an inline comment row only
when the highlighted text is truthy and both offsets are non-null. -/
def confirmStep (vsid fsid : Nat) (st : ConfirmState) (item_id : Nat) :
    ConfirmState :=
  match st.extracted.find?
      (fun it => it.voice_session_id == vsid && it.id == item_id) with
  | none => st
  | some item =>
    let st1 := { st with
      extracted := updateFirst st.extracted
        (fun it => it.voice_session_id == vsid && it.id == item_id)
        (fun it => { it with confirmation_status := ConfirmationStatus.confirmed }) }
    match item.feedback_type with
    | .inline_comment =>
      match item.highlighted_text, item.start_offset, item.end_offset with
      | some h, some so, some eo =>
        if h ≠ "" then
          { st1 with
            comments := st1.comments ++
              [{ id := st1.nextId, session_id := fsid, highlighted_text := h,
                 start_offset := so, end_offset := eo, comment := item.content,
                 comment_audio_path := none }],
            nextId := st1.nextId + 1 }
        else st1
      | _, _, _ => st1
    | .overall => { st1 with overall_parts := st1.overall_parts ++ [item.content] }
    | .guide_suggestion => { st1 with guide_parts := st1.guide_parts ++ [item.content] }
    | .rating =>
      match digitRuns item.content with
      | [] => st1
      | n :: _ => { st1 with rating_value := some (n : Int) }

/-- The session fix-up at the end of `confirm_feedback`
(voice_feedback.py lines 380-394): set `overall_feedback` from the
confirmed overall parts, append guide suggestions under the
"Suggested Guide Rules" heading, set the rating, mark `submitted`. -/
def foldConfirmedSession (feedback_session : FeedbackSession)
    (st : ConfirmState) : FeedbackSession :=
  let fs1 :=
    if st.overall_parts ≠ [] then
      { feedback_session with
        overall_feedback := some (String.intercalate "\n\n" st.overall_parts) }
    else feedback_session
  let fs2 :=
    if st.guide_parts ≠ [] then
      { fs1 with
        overall_feedback := some ((fs1.overall_feedback.getD "") ++
          "\n\nSuggested Guide Rules:\n" ++
          String.intercalate "\n" (st.guide_parts.map (fun p => "- " ++ p))) }
    else fs1
  let fs3 :=
    match st.rating_value with
    | some r => { fs2 with rating := some r }
    | none => fs2
  { fs3 with status := FeedbackStatus.submitted }

/-- `confirm_feedback` (voice_feedback.py lines 308-404).  The parent
feedback-session row is present in any world the app can build
(`feedback_session_id` is a non-null foreign key); its absence is
modelled as a 404. -/
def confirm_feedback (session_id : Nat) (request : ConfirmFeedbackRequest)
    (w : World) : Except ApiError (World × ConfirmResult) :=
  match w.voiceSessions.find? (fun v => v.id == session_id) with
  | none => .error (.notFound "Voice session not found")
  | some voice_session =>
    match w.sessions.find? (fun s => s.id == voice_session.feedback_session_id) with
    | none => .error (.notFound "Feedback session row missing")
    | some feedback_session =>
      let extracted1 := request.rejected_ids.foldl (rejectStep voice_session.id)
        w.extracted
      let st0 : ConfirmState :=
        ⟨extracted1, w.comments, w.nextId, [], [], none⟩
      let st := request.confirmed_ids.foldl
        (confirmStep voice_session.id feedback_session.id) st0
      let fs4 := foldConfirmedSession feedback_session st
      let sessionItems := st.extracted.filter
        (fun it => it.voice_session_id == voice_session.id)
      let count := (request.confirmed_ids.filter (fun i =>
        sessionItems.any (fun item =>
          item.id == i && item.feedback_type == FeedbackType.inline_comment))).length
      .ok ({ w with
             extracted := st.extracted,
             comments := st.comments,
             nextId := st.nextId,
             sessions := updateFirst w.sessions
               (fun s => s.id == feedback_session.id) (fun _ => fs4) },
           ⟨feedback_session.id, count⟩)

/-- `RevisionReview` (schemas.py lines 107-111). -/
structure RevisionReview where
  accept_poem : Bool
  accept_guide_changes : Bool
  edited_poem : Option String := none
  edited_guide_changes : Option String := none
deriving DecidableEq, Repr

/-- `get_current_guide` (guide_service.py lines 19-35): the
highest-version row; when the table is empty, seed version 1 from the
guide file and return it. -/
def get_current_guide (w : World) : World × (String × Nat) :=
  let latest := w.guides.foldl (fun acc g =>
    match acc with
    | none => some g
    | some m => if g.version > m.version then some g else some m) none
  match latest with
  | some g => (w, (g.content, g.version))
  | none =>
    let gv : GuideVersion :=
      { id := w.nextId, content := w.guideFile, version := 1,
        change_summary := some "Initial guide" }
    ({ w with guides := w.guides ++ [gv], nextId := w.nextId + 1 },
     (w.guideFile, 1))

/-- `update_guide` (guide_service.py lines 38-55): append a row with
`max(version) + 1` (0 for an empty table) and mirror the content into
the guide file. -/
def update_guide (w : World) (content : String) (change_summary : Option String) :
    World × Nat :=
  let current_version := w.guides.foldl (fun m g => max m g.version) 0
  let gv : GuideVersion :=
    { id := w.nextId, content := content, version := current_version + 1,
      change_summary := change_summary }
  ({ w with
     guides := w.guides ++ [gv],
     guideFile := content,
     nextId := w.nextId + 1 },
   current_version + 1)

/-- `review_revision` (revisions.py lines 27-79).  The original poem row
is present in any world the app can build (non-null foreign key); its
absence is modelled as a 404. -/
def review_revision (revision_id : Nat) (review : RevisionReview) (w : World) :
    Except ApiError (World × Revision) :=
  match w.revisions.find? (fun r => r.id == revision_id) with
  | none => .error (.notFound "Revision not found")
  | some revision =>
    match w.poems.find? (fun p => p.id == revision.original_poem_id) with
    | none => .error (.notFound "Original poem row missing")
    | some original_poem =>
      let step1 :=
        if review.accept_poem then
          let final_poem :=
            match review.edited_poem with
            | some e => if e ≠ "" then e else revision.revised_poem
            | none => revision.revised_poem
          ({ revision with poem_accepted := 1, revised_poem := final_poem },
           { original_poem with status := PoemStatus.revised })
        else ({ revision with poem_accepted := -1 }, original_poem)
      let rev1 := step1.1
      let poem1 := step1.2
      let proposalTruthy : Bool :=
        match revision.proposed_guide_changes with
        | some g => g != ""
        | none => false
      let step2 :=
        if review.accept_guide_changes && proposalTruthy then
          let final_changes :=
            match review.edited_guide_changes with
            | some e => if e ≠ "" then e else revision.proposed_guide_changes.getD ""
            | none => revision.proposed_guide_changes.getD ""
          let ga := get_current_guide w
          let new_content := ga.2.1 ++ "\n\n" ++ final_changes
          let gb := update_guide ga.1 new_content
            (some ("Applied changes from revision #" ++ toString revision_id))
          (gb.1, { rev1 with guide_changes_accepted := 1 })
        else if review.accept_guide_changes = false then
          (w, { rev1 with guide_changes_accepted := -1 })
        else (w, rev1)
      let w1 := step2.1
      let rev2 := step2.2
      let poem2 :=
        if rev2.poem_accepted == 1 then { poem1 with status := PoemStatus.accepted }
        else poem1
      .ok ({ w1 with
             revisions := updateFirst w1.revisions (fun r => r.id == revision_id)
               (fun _ => rev2),
             poems := updateFirst w1.poems (fun p => p.id == original_poem.id)
               (fun _ => poem2) },
           rev2)

/-! ## Concrete worlds and derived operations used by the claim theorems -/

/-- The Revision Engine run of the C4 scenario. -/
def c4Revision : RevisionData :=
  generate_mock_revision "The heartbeat of the city" ""
    [⟨"heartbeat", "never use the word heartbeat"⟩] ""

/-- `process` issued twice in a row on the same session. -/
def processTwice (session_id : Nat) (w : World) :
    Except ApiError (World × Revision) :=
  match process_feedback session_id w with
  | .ok p => process_feedback session_id p.1
  | .error e => .error e

/-- A poem under review with one submitted feedback session and no
revision yet. -/
def c1World : World :=
  { poems := [{ id := 1, prompt := "a poem about a city",
                content := "The heartbeat of the city",
                guide_version := 1, status := PoemStatus.under_review }],
    sessions := [{ id := 2, poem_id := 1, overall_feedback := none,
                   rating := none, status := FeedbackStatus.submitted }],
    comments := [], voiceSessions := [], extracted := [], revisions := [],
    guides := [], guideFile := "", nextId := 3 }

/-- One in-progress feedback session, nothing else. -/
def c6World : World :=
  { poems := [{ id := 7, prompt := "p", content := "Morning light spills",
                guide_version := 1, status := PoemStatus.under_review }],
    sessions := [{ id := 1, poem_id := 7, overall_feedback := none,
                   rating := none, status := FeedbackStatus.in_progress }],
    comments := [], voiceSessions := [], extracted := [], revisions := [],
    guides := [], guideFile := "", nextId := 2 }

/-- A submitted feedback session (for the C8 witness). -/
def c8World : World :=
  { poems := [{ id := 7, prompt := "p", content := "Morning light spills",
                guide_version := 1, status := PoemStatus.under_review }],
    sessions := [{ id := 1, poem_id := 7, overall_feedback := none,
                   rating := none, status := FeedbackStatus.submitted }],
    comments := [], voiceSessions := [], extracted := [], revisions := [],
    guides := [], guideFile := "", nextId := 2 }

/-! ## Claim theorems -/

/-- A voice session with one pending item (for the C10 witness). -/
def c10World : World :=
  { poems := [], comments := [], revisions := [], guides := [],
    sessions := [{ id := 1, poem_id := 1, overall_feedback := none,
                   rating := none, status := FeedbackStatus.in_progress }],
    voiceSessions := [{ id := 2, feedback_session_id := 1,
                        status := VoiceSessionStatus.active }],
    extracted := [{ id := 5, voice_session_id := 2,
                    feedback_type := FeedbackType.overall, content := "fine",
                    highlighted_text := none, start_offset := none,
                    end_offset := none,
                    confirmation_status := ConfirmationStatus.pending }],
    guideFile := "", nextId := 6 }

/-- A voice session holding one pending `overall` item and one pending
`inline_comment` item whose highlighted text is the empty string (which
is non-null) with non-null offsets. -/
def c3World : World :=
  { poems := [], comments := [], revisions := [], guides := [],
    sessions := [{ id := 1, poem_id := 1, overall_feedback := none,
                   rating := none, status := FeedbackStatus.in_progress }],
    voiceSessions := [{ id := 2, feedback_session_id := 1,
                        status := VoiceSessionStatus.active }],
    extracted :=
      [{ id := 3, voice_session_id := 2, feedback_type := FeedbackType.overall,
         content := "Strong imagery overall", highlighted_text := none,
         start_offset := none, end_offset := none,
         confirmation_status := ConfirmationStatus.pending },
       { id := 4, voice_session_id := 2,
         feedback_type := FeedbackType.inline_comment, content := "too flowery",
         highlighted_text := some "", start_offset := some 0,
         end_offset := some 5,
         confirmation_status := ConfirmationStatus.pending }],
    guideFile := "", nextId := 5 }

/-- `c3World` with a non-empty highlighted text on the inline item. -/
def c3GoodWorld : World :=
  { poems := [], comments := [], revisions := [], guides := [],
    sessions := [{ id := 1, poem_id := 1, overall_feedback := none,
                   rating := none, status := FeedbackStatus.in_progress }],
    voiceSessions := [{ id := 2, feedback_session_id := 1,
                        status := VoiceSessionStatus.active }],
    extracted :=
      [{ id := 3, voice_session_id := 2, feedback_type := FeedbackType.overall,
         content := "Strong imagery overall", highlighted_text := none,
         start_offset := none, end_offset := none,
         confirmation_status := ConfirmationStatus.pending },
       { id := 4, voice_session_id := 2,
         feedback_type := FeedbackType.inline_comment, content := "too flowery",
         highlighted_text := some "flowery", start_offset := some 4,
         end_offset := some 11,
         confirmation_status := ConfirmationStatus.pending }],
    guideFile := "", nextId := 5 }

/-- A world with a poem, a processed session, its revision carrying a
guide proposal, and one guide row (for the C9 witness). -/
def c9World : World :=
  { poems := [{ id := 1, prompt := "p", content := "The heartbeat of the city",
                guide_version := 1, status := PoemStatus.under_review }],
    sessions := [{ id := 2, poem_id := 1, overall_feedback := none,
                   rating := none, status := FeedbackStatus.processed }],
    comments := [], voiceSessions := [], extracted := [],
    revisions := [{ id := 3, session_id := 2, original_poem_id := 1,
                    revised_poem := "The breath of the city",
                    proposed_guide_changes :=
                      some "## SME Feedback Rules\n- Never use the word \"heartbeat\"",
                    rationale := none, poem_accepted := 0,
                    guide_changes_accepted := 0 }],
    guides := [{ id := 0, content := "Write with concrete imagery.",
                 version := 1, change_summary := none }],
    guideFile := "Write with concrete imagery.", nextId := 4 }

/-! ## Theorems -/

theorem resolveOffsets_map_spec (f : Char → Char) (t s : List Char) :
    ((∃ i, s.isPrefixOf (t.drop i) = true) →
      ∃ k, resolveOffsetsWith (fun l => l.map f) t s = some (k, k + s.length) ∧
        sliceL t k (k + s.length) = s ∧
        ∀ j, j < k → sliceL t j (j + s.length) ≠ s) ∧
    ((¬ ∃ i, s.isPrefixOf (t.drop i) = true) →
      (∃ i, (s.map f).isPrefixOf ((t.map f).drop i) = true) →
      ∃ k, resolveOffsetsWith (fun l => l.map f) t s = some (k, k + s.length) ∧
        (sliceL t k (k + s.length)).map f = s.map f) ∧
    ((¬ ∃ i, (s.map f).isPrefixOf ((t.map f).drop i) = true) →
      resolveOffsetsWith (fun l => l.map f) t s = none) := by
  have hmd : ∀ (l : List Char) (n : Nat), (l.drop n).map f = (l.map f).drop n :=
    fun l n => by simp [List.map_drop]
  refine ⟨?_, ?_, ?_⟩
  · rintro ⟨i, hi⟩
    match hfind : pyFind t s with
    | some k =>
      obtain ⟨h1, h2⟩ := pyFind_some_spec t s k hfind
      refine ⟨k, ?_, slice_eq_of_isPrefixOf t s k h1, ?_⟩
      · rw [resolveOffsetsWith, hfind]
      · intro j hj hslice
        have := isPrefixOf_of_slice_eq t s j hslice
        rw [h2 j hj] at this
        exact Bool.noConfusion this
    | none =>
      have := pyFind_none_spec t s hfind i
      rw [hi] at this
      exact Bool.noConfusion this
  · rintro hno ⟨i, hi⟩
    have hfind : pyFind t s = none := by
      match hf : pyFind t s with
      | none => rfl
      | some k =>
        obtain ⟨h1, _⟩ := pyFind_some_spec t s k hf
        exact absurd ⟨k, h1⟩ hno
    match hci : pyFind (t.map f) (s.map f) with
    | some k =>
      obtain ⟨h1, _⟩ := pyFind_some_spec (t.map f) (s.map f) k hci
      refine ⟨k, ?_, ?_⟩
      · rw [resolveOffsetsWith, hfind, hci]
      · have hpre := (List.isPrefixOf_iff_prefix).mp h1
        have htake := List.prefix_iff_eq_take.mp hpre
        have hlen : (s.map f).length = s.length := by simp
        have hmt : ((t.drop k).take s.length).map f =
            ((t.map f).drop k).take s.length := by
          simp [List.map_take, List.map_drop]
        rw [sliceL, Nat.add_sub_cancel_left, hmt, htake, hlen]
    | none =>
      have := pyFind_none_spec (t.map f) (s.map f) hci i
      rw [hi] at this
      exact Bool.noConfusion this
  · intro hno
    have hfind : pyFind t s = none := by
      match hf : pyFind t s with
      | none => rfl
      | some k =>
        obtain ⟨h1, _⟩ := pyFind_some_spec t s k hf
        refine absurd ⟨k, ?_⟩ hno
        rw [← hmd]
        exact isPrefixOf_map f s (t.drop k) h1
    have hci : pyFind (t.map f) (s.map f) = none := by
      match hf : pyFind (t.map f) (s.map f) with
      | none => rfl
      | some k =>
        obtain ⟨h1, _⟩ := pyFind_some_spec (t.map f) (s.map f) k hf
        exact absurd ⟨k, h1⟩ hno
    rw [resolveOffsetsWith, hfind, hci]

theorem pyLowerChar_of_ascii (c : Char) (h : c.toNat < 128) :
    pyLowerChar c = [c.toLower] := by
  have hne : ¬ (c = 'İ') := by
    intro he
    rw [he] at h
    exact absurd h (by decide)
  unfold pyLowerChar
  rw [if_neg hne]

theorem pyLowerL_eq_map_of_ascii (l : List Char)
    (h : ∀ c ∈ l, c.toNat < 128) : pyLowerL l = l.map Char.toLower := by
  induction l with
  | nil => rfl
  | cons c t ih =>
    have hc : c.toNat < 128 := h c (List.mem_cons_self c t)
    have ht : ∀ x ∈ t, x.toNat < 128 := fun x hx => h x (List.mem_cons_of_mem c hx)
    show pyLowerChar c ++ pyLowerL t = c.toLower :: t.map Char.toLower
    rw [pyLowerChar_of_ascii c hc, ih ht]
    rfl

theorem mem_of_mem_sliceL (t : List Char) (i j : Nat) (c : Char)
    (h : c ∈ sliceL t i j) : c ∈ t := by
  rw [sliceL] at h
  exact ((List.take_sublist _ _).trans (List.drop_sublist _ _)).subset h

/-- C2 counterexample: the resolver does not return valid
case-insensitive bounds for every `T` and `S`.  At `T = "İabc"`,
`S = "ABC"`: `S` is absent exactly, `S` occurs case-insensitively (the
span `T[1:4]` equals it up to case), yet the code returns `(2, 5)` —
`end = 5` exceeds `len(T) = 4` and `T[2:5]` is not case-insensitively
equal to `S` — because `start` is computed with `find` inside
`T.lower()`, which is five characters long (Python lowers `'İ'` to two
characters), so offsets into the lowered text misalign with `T`. -/
theorem offset_resolver_unicode_ctrex :
    pyFind "İabc".data "ABC".data = none ∧
    pyLowerL (sliceL "İabc".data 1 4) = pyLowerL "ABC".data ∧
    calculate_text_offsets "İabc".data "ABC".data = some (2, 5) ∧
    ("İabc".data).length = 4 ∧
    ¬ (pyLowerL (sliceL "İabc".data 2 5) = pyLowerL "ABC".data) := by
  decide

/-- C2 amended: for reference texts and queries of ASCII characters —
where Python `str.lower` is exactly character-wise, so the lowered text
aligns with the original — the resolver behaves as claimed:
(a) when `S` occurs exactly in `T`, the result is `(k, k + |S|)` at the
leftmost exact occurrence; (b) when `S` occurs only case-insensitively,
the returned bounds delimit a span of `T` equal to `S` up to case;
(c) when `S` is absent even case-insensitively, the result is `none`.
The resolver is a pure function, so it has no side effects and is
deterministic. -/
theorem offset_resolver_spec_ascii (t s : List Char)
    (ht : ∀ c ∈ t, c.toNat < 128) (hs : ∀ c ∈ s, c.toNat < 128) :
    ((∃ i, s.isPrefixOf (t.drop i) = true) →
      ∃ k, calculate_text_offsets t s = some (k, k + s.length) ∧
        sliceL t k (k + s.length) = s ∧
        ∀ j, j < k → sliceL t j (j + s.length) ≠ s) ∧
    ((¬ ∃ i, s.isPrefixOf (t.drop i) = true) →
      (∃ i, (pyLowerL s).isPrefixOf ((pyLowerL t).drop i) = true) →
      ∃ k, calculate_text_offsets t s = some (k, k + s.length) ∧
        pyLowerL (sliceL t k (k + s.length)) = pyLowerL s) ∧
    ((¬ ∃ i, (pyLowerL s).isPrefixOf ((pyLowerL t).drop i) = true) →
      calculate_text_offsets t s = none) := by
  have h1 : pyLowerL t = t.map Char.toLower := pyLowerL_eq_map_of_ascii t ht
  have h2 : pyLowerL s = s.map Char.toLower := pyLowerL_eq_map_of_ascii s hs
  have hcalc : calculate_text_offsets t s =
      resolveOffsetsWith (fun l => l.map Char.toLower) t s := by
    unfold calculate_text_offsets resolveOffsetsWith
    dsimp only
    rw [h1, h2]
  have G := resolveOffsets_map_spec Char.toLower t s
  refine ⟨?_, ?_, ?_⟩
  · intro hex
    obtain ⟨k, hk1, hk2, hk3⟩ := G.1 hex
    exact ⟨k, by rw [hcalc]; exact hk1, hk2, hk3⟩
  · intro hno hex
    rw [h1, h2] at hex
    obtain ⟨k, hk1, hk2⟩ := G.2.1 hno hex
    refine ⟨k, by rw [hcalc]; exact hk1, ?_⟩
    have hslice : pyLowerL (sliceL t k (k + s.length)) =
        (sliceL t k (k + s.length)).map Char.toLower :=
      pyLowerL_eq_map_of_ascii _
        (fun c hc => ht c (mem_of_mem_sliceL t k (k + s.length) c hc))
    rw [hslice, h2]
    exact hk2
  · intro hno
    rw [h1, h2] at hno
    rw [hcalc]
    exact G.2.2 hno

/-- Witness for the amended C2: concrete ASCII instantiations of all
three branches of `offset_resolver_spec_ascii`. -/
theorem offset_resolver_spec_ascii_witness :
    (∃ k, calculate_text_offsets "The Heartbeat".data "Heart".data =
        some (k, k + ("Heart".data).length) ∧
      sliceL "The Heartbeat".data k (k + ("Heart".data).length) = "Heart".data ∧
      ∀ j, j < k → sliceL "The Heartbeat".data j (j + ("Heart".data).length) ≠
        "Heart".data) ∧
    (∃ k, calculate_text_offsets "The Heartbeat".data "heart".data =
        some (k, k + ("heart".data).length) ∧
      pyLowerL (sliceL "The Heartbeat".data k (k + ("heart".data).length)) =
        pyLowerL "heart".data) ∧
    calculate_text_offsets "The Heartbeat".data "xyz".data = none := by
  refine ⟨?_, ?_, ?_⟩
  · exact (offset_resolver_spec_ascii "The Heartbeat".data "Heart".data
      (by decide) (by decide)).1 ⟨4, by decide⟩
  · exact (offset_resolver_spec_ascii "The Heartbeat".data "heart".data
      (by decide) (by decide)).2.1
      (no_occurrence_of_pyFind_none _ _ (by decide)) ⟨4, by decide⟩
  · exact (offset_resolver_spec_ascii "The Heartbeat".data "xyz".data
      (by decide) (by decide)).2.2
      (no_occurrence_of_pyFind_none _ _ (by decide))

/-- C4: for the mechanical Revision Engine on poem
"The heartbeat of the city" with empty overall feedback and the single
comment `{highlighted_text: "heartbeat", comment: "never use the word
heartbeat"}`, the revised poem holds no case-insensitive "heartbeat",
and the proposed guide changes exist and name "heartbeat". -/
theorem mock_revision_removes_heartbeat :
    containsSub (lowerS c4Revision.revised_poem) "heartbeat" = false ∧
    c4Revision.proposed_guide_changes.isSome = true ∧
    containsSub (c4Revision.proposed_guide_changes.getD "") "heartbeat" = true := by
  refine ⟨by decide, by decide, by decide⟩

/-- C7: the Revision Engine's response parsing raises on well-formed
non-object JSON: on the array response `"[1]"` the uncaught `TypeError`
from `result["revised_poem"] = ...` propagates (only
`json.JSONDecodeError` is handled), aborting the surrounding transition
instead of degrading to the safe default.  Unparseable text does reach
the safe default, and the Extractor path is shielded by its caller's
`except Exception`. -/
theorem reviser_parse_raises_on_json_array :
    generate_revision_parse "The heartbeat of the city" "[1]" =
      .error PyErr.typeError ∧
    generate_revision_parse "The heartbeat of the city" "not json" =
      .ok (.obj [("revised_poem", .str "The heartbeat of the city"),
                 ("proposed_guide_changes", .null),
                 ("rationale", .str "Failed to parse AI response")]) ∧
    interviewer_handle_response "[1]" =
      .obj [("follow_up_question", .str "Could you tell me more about that?"),
            ("extracted_items", .arr []),
            ("is_complete", .bool false)] := by
  exact ⟨rfl, rfl, rfl⟩

/-- C1: `process` is not idempotent as claimed: on `c1World` the first
call succeeds, creates the one Revision row and moves the session to
`processed`; because of that status change the second call fails with
400 "Session must be submitted first" instead of returning the Revision
unchanged — the revision-already-exists early return sits behind the
status guard and is unreachable through the normal lifecycle. -/
theorem process_twice_second_call_fails :
    (match process_feedback 2 c1World with
     | .ok p => p.1.revisions.length == 1 &&
         ((p.1.sessions.map (fun s => s.status)) == [FeedbackStatus.processed])
     | .error _ => false) = true ∧
    processTwice 2 c1World =
      .error (ApiError.badRequest "Session must be submitted first") := by
  refine ⟨by decide, by rfl⟩

/-- C6 counterexample: `add_comment` performs no offset validation — a
comment with `start_offset = 5 > end_offset = 2` (violating
`0 ≤ start < end`) on an in-progress session is accepted and stored
verbatim, not rejected with a validation error. -/
theorem add_comment_no_offset_validation_ctrex :
    (match add_comment 1 ⟨"bad span", 5, 2, "needs work", none⟩ c6World with
     | .ok p => (p.2.start_offset == 5 && p.2.end_offset == 2) &&
         ((p.1.comments.map (fun c => (c.start_offset, c.end_offset))) == [(5, 2)])
     | .error _ => false) = true := by decide

/-- C6 amended: `add_comment` on an existing in-progress session
accepts any payload and stores the offsets exactly as given — the only
gating is session existence and the `in_progress` status; no
`0 ≤ start < end ≤ len(referenceText)` check exists anywhere in the
handler or the schema. -/
theorem add_comment_accepts_any_offsets (w : World) (sid : Nat)
    (c : InlineCommentCreate) (s : FeedbackSession)
    (hfind : w.sessions.find? (fun x => x.id == sid) = some s)
    (hstatus : s.status = FeedbackStatus.in_progress) :
    add_comment sid c w =
      .ok ({ w with
             comments := w.comments ++
               [⟨w.nextId, sid, c.highlighted_text, c.start_offset,
                 c.end_offset, c.comment, c.audio_path⟩],
             nextId := w.nextId + 1 },
           ⟨w.nextId, sid, c.highlighted_text, c.start_offset, c.end_offset,
            c.comment, c.audio_path⟩) := by
  simp [add_comment, hfind, hstatus]

/-- Witness for the amended C6 at offsets violating the claimed bound. -/
theorem add_comment_accepts_any_offsets_witness :
    add_comment 1 ⟨"bad span", 5, 2, "needs work", none⟩ c6World =
      .ok ({ c6World with
             comments := [⟨2, 1, "bad span", 5, 2, "needs work", none⟩],
             nextId := 3 },
           ⟨2, 1, "bad span", 5, 2, "needs work", none⟩) := by
  exact add_comment_accepts_any_offsets c6World 1
    ⟨"bad span", 5, 2, "needs work", none⟩
    ⟨1, 7, none, none, FeedbackStatus.in_progress⟩ (by decide) rfl

/-- C8: `add_comment` on a session whose status is `submitted` or
`processed` always fails with the 400 invalid-state error; an error
return leaves the world — in particular the comment set — untouched (in
this embedding a handler yields a new world only on success, matching
the source, which raises before any mutation). -/
theorem add_comment_state_gating (w : World) (sid : Nat)
    (c : InlineCommentCreate) (s : FeedbackSession)
    (hfind : w.sessions.find? (fun x => x.id == sid) = some s)
    (hstatus : s.status = FeedbackStatus.submitted ∨
      s.status = FeedbackStatus.processed) :
    add_comment sid c w =
      .error (ApiError.badRequest "Cannot add comments to submitted session") := by
  rcases hstatus with h | h <;> simp [add_comment, hfind, h]

/-- Witness for C8 on a concrete submitted session. -/
theorem add_comment_state_gating_witness :
    add_comment 1 ⟨"x", 0, 1, "c", none⟩ c8World =
      .error (ApiError.badRequest "Cannot add comments to submitted session") := by
  exact add_comment_state_gating c8World 1 ⟨"x", 0, 1, "c", none⟩
    ⟨1, 7, none, none, FeedbackStatus.submitted⟩ (by decide) (Or.inl rfl)

/-- C5 counterexample: on the first turn (one SME message in the
history) the fallback extractor returns `is_complete = false` even
though the latest SME message is exactly the completion phrase
"that's all" — the first- and second-turn branches hardcode
`is_complete: False`. -/
theorem completion_detection_ctrex :
    (generate_mock_response "that's all"
      [⟨MessageRole.sme, "that's all"⟩] "poem").is_complete = false := by
  decide

/-- C5 amended: whenever the conversation history does not hold exactly
one or exactly two SME messages (those two branches always report
`is_complete = false`), a completion phrase occurring case-insensitively
in the latest SME message makes the fallback extractor's single-turn
result terminal. -/
theorem completion_detection_amended (msg : String) (hist : List MsgEntry)
    (poem : String)
    (h1 : (hist.filter (fun m => m.role == MessageRole.sme)).length ≠ 1)
    (h2 : (hist.filter (fun m => m.role == MessageRole.sme)).length ≠ 2)
    (hsig : completion_signals.any (fun sig => containsSub (lowerS msg) sig) = true) :
    (generate_mock_response msg hist poem).is_complete = true := by
  unfold generate_mock_response
  rw [if_neg h1, if_neg h2, hsig]
  simp

/-- Witness for the amended C5 at a fourth-turn history. -/
theorem completion_detection_amended_witness :
    (generate_mock_response "I think that's everything, thanks"
      [⟨MessageRole.sme, "a"⟩, ⟨MessageRole.ai, "b"⟩, ⟨MessageRole.sme, "c"⟩,
       ⟨MessageRole.ai, "d"⟩, ⟨MessageRole.sme, "that's everything"⟩]
      "poem").is_complete = true := by
  exact completion_detection_amended "I think that's everything, thanks"
    [⟨MessageRole.sme, "a"⟩, ⟨MessageRole.ai, "b"⟩, ⟨MessageRole.sme, "c"⟩,
     ⟨MessageRole.ai, "d"⟩, ⟨MessageRole.sme, "that's everything"⟩]
    "poem" (by decide) (by decide) (by decide)

theorem foldConfirmedSession_id (fs : FeedbackSession) (st : ConfirmState) :
    (foldConfirmedSession fs st).id = fs.id := by
  unfold foldConfirmedSession
  dsimp only
  split <;> split <;> split <;> rfl

theorem foldConfirmedSession_status (fs : FeedbackSession) (st : ConfirmState) :
    (foldConfirmedSession fs st).status = FeedbackStatus.submitted := by
  unfold foldConfirmedSession
  rfl

theorem foldConfirmedSession_overall_isSome (fs : FeedbackSession)
    (st : ConfirmState) (h : st.overall_parts ≠ []) :
    (foldConfirmedSession fs st).overall_feedback.isSome = true := by
  unfold foldConfirmedSession
  rw [if_pos h]
  dsimp only
  split <;> split <;> rfl

/-- C10: an id in `confirmedIds` or `rejectedIds` matching no
`ExtractedFeedback` of the session is silently skipped (`continue` /
`if item:`): for every request — matching, partly matching or wholly
unknown ids — the operation succeeds and the parent FeedbackSession is
marked `submitted`; no per-item NotFound exists in the handler. -/
theorem confirm_unknown_ids_are_skipped (w : World) (sid : Nat)
    (req : ConfirmFeedbackRequest) (vs : VoiceFeedbackSession)
    (fs : FeedbackSession)
    (hvs : w.voiceSessions.find? (fun v => v.id == sid) = some vs)
    (hfs : w.sessions.find? (fun s => s.id == vs.feedback_session_id) = some fs) :
    ∃ w' res fs',
      confirm_feedback sid req w = .ok (w', res) ∧
      res.feedback_session_id = fs.id ∧
      w'.sessions = updateFirst w.sessions (fun s => s.id == fs.id)
        (fun _ => fs') ∧
      fs'.id = fs.id ∧
      fs'.status = FeedbackStatus.submitted := by
  unfold confirm_feedback
  rw [hvs]
  dsimp only
  rw [hfs]
  dsimp only
  exact ⟨_, _, _, rfl, rfl, rfl, foldConfirmedSession_id fs _,
    foldConfirmedSession_status fs _⟩

/-- Witness for C10: wholly unknown ids `[99]` / `[100]`. -/
theorem confirm_unknown_ids_are_skipped_witness :
    ∃ w' res fs',
      confirm_feedback 2 ⟨[99], [100]⟩ c10World = .ok (w', res) ∧
      res.feedback_session_id =
        (⟨1, 1, none, none, FeedbackStatus.in_progress⟩ : FeedbackSession).id ∧
      w'.sessions = updateFirst c10World.sessions
        (fun s => s.id == (⟨1, 1, none, none,
          FeedbackStatus.in_progress⟩ : FeedbackSession).id) (fun _ => fs') ∧
      fs'.id = (⟨1, 1, none, none, FeedbackStatus.in_progress⟩ : FeedbackSession).id ∧
      fs'.status = FeedbackStatus.submitted := by
  exact confirm_unknown_ids_are_skipped c10World 2 ⟨[99], [100]⟩
    ⟨2, 1, VoiceSessionStatus.active⟩
    ⟨1, 1, none, none, FeedbackStatus.in_progress⟩ (by decide) (by decide)

theorem updateFirst_cons_pos (x : α) (t : List α) (p : α → Bool) (f : α → α)
    (h : p x = true) : updateFirst (x :: t) p f = f x :: t := by
  simp [updateFirst, h]

theorem updateFirst_cons_neg (x : α) (t : List α) (p : α → Bool) (f : α → α)
    (h : p x = false) : updateFirst (x :: t) p f = x :: updateFirst t p f := by
  simp [updateFirst, h]

/-- C3 counterexample: on `c3World` the inline item has non-null
highlighted text (`some ""`) and non-null offsets, both items are
confirmed and both end `confirmed`, yet no InlineComment row is created:
the folding guard `if item.highlighted_text and ...` is a truthiness
test, so the empty string behaves like null and the claimed
"exactly one InlineComment row" fails. -/
theorem confirm_folding_ctrex :
    (match confirm_feedback 2 ⟨[3, 4], []⟩ c3World with
     | .ok p => (p.1.comments.length == 0) &&
         ((p.1.extracted.map (fun it => it.confirmation_status)) ==
           [ConfirmationStatus.confirmed, ConfirmationStatus.confirmed])
     | .error _ => false) = true := by
  decide

/-- C3 amended: as the claim states, but with the inline item's
highlighted text non-null *and non-empty*: confirming the `overall` item
and the `inline_comment` item creates exactly one InlineComment row on
the parent FeedbackSession, makes the parent's `overallFeedback`
non-null, marks the parent `submitted`, and every item referenced by
neither id list (`others`) is kept verbatim — in particular a pending
item stays `pending`. -/
theorem confirm_folding_amended
    (w : World) (vs : VoiceFeedbackSession) (fs : FeedbackSession)
    (a b : ExtractedFeedback) (others : List ExtractedFeedback)
    (ht : String) (so eo : Int)
    (hvs : w.voiceSessions.find? (fun v => v.id == vs.id) = some vs)
    (hfs : w.sessions.find? (fun s => s.id == vs.feedback_session_id) = some fs)
    (hext : w.extracted = a :: b :: others)
    (havs : a.voice_session_id = vs.id)
    (haty : a.feedback_type = FeedbackType.overall)
    (hast : a.confirmation_status = ConfirmationStatus.pending)
    (hbvs : b.voice_session_id = vs.id)
    (hbty : b.feedback_type = FeedbackType.inline_comment)
    (hbst : b.confirmation_status = ConfirmationStatus.pending)
    (hbh : b.highlighted_text = some ht) (hht : ht ≠ "")
    (hbs : b.start_offset = some so) (hbe : b.end_offset = some eo)
    (hab : a.id ≠ b.id) :
    ∃ w' res,
      confirm_feedback vs.id ⟨[a.id, b.id], []⟩ w = .ok (w', res) ∧
      w'.comments = w.comments ++
        [⟨w.nextId, fs.id, ht, so, eo, b.content, none⟩] ∧
      w'.extracted =
        { a with confirmation_status := ConfirmationStatus.confirmed } ::
        { b with confirmation_status := ConfirmationStatus.confirmed } :: others ∧
      (∃ fs', w'.sessions = updateFirst w.sessions (fun s => s.id == fs.id)
          (fun _ => fs') ∧
        fs'.overall_feedback.isSome = true ∧
        fs'.status = FeedbackStatus.submitted) := by
  have habF : (a.id == b.id) = false := by
    simp [hab]
  have hpa : ((a.voice_session_id == vs.id) && (a.id == a.id)) = true := by
    simp [havs]
  have hpab : ((a.voice_session_id == vs.id) && (a.id == b.id)) = false := by
    simp [habF]
  have hpb : ((b.voice_session_id == vs.id) && (b.id == b.id)) = true := by
    simp [hbvs]
  have hneg2 : (({ a with confirmation_status := ConfirmationStatus.confirmed } :
      ExtractedFeedback).voice_session_id == vs.id &&
      ({ a with confirmation_status := ConfirmationStatus.confirmed } :
      ExtractedFeedback).id == b.id) = false := hpab
  have hfind1 : List.find?
      (fun it => it.voice_session_id == vs.id && it.id == a.id)
      (a :: b :: others) = some a :=
    List.find?_cons_of_pos (b :: others) hpa
  have hfind2 : List.find?
      (fun it => it.voice_session_id == vs.id && it.id == b.id)
      ({ a with confirmation_status := ConfirmationStatus.confirmed } ::
        b :: others) = some b :=
    (List.find?_cons_of_neg (b :: others) (by simp [hneg2])).trans
      (List.find?_cons_of_pos others hpb)
  have hupd1 : updateFirst (a :: b :: others)
      (fun it => it.voice_session_id == vs.id && it.id == a.id)
      (fun it => { it with confirmation_status := ConfirmationStatus.confirmed }) =
      { a with confirmation_status := ConfirmationStatus.confirmed } :: b :: others :=
    updateFirst_cons_pos _ _ _ _ hpa
  have hupd2 : updateFirst
      ({ a with confirmation_status := ConfirmationStatus.confirmed } :: b :: others)
      (fun it => it.voice_session_id == vs.id && it.id == b.id)
      (fun it => { it with confirmation_status := ConfirmationStatus.confirmed }) =
      { a with confirmation_status := ConfirmationStatus.confirmed } ::
        { b with confirmation_status := ConfirmationStatus.confirmed } :: others :=
    (updateFirst_cons_neg
        { a with confirmation_status := ConfirmationStatus.confirmed }
        (b :: others)
        (fun it => it.voice_session_id == vs.id && it.id == b.id)
        (fun it => { it with confirmation_status := ConfirmationStatus.confirmed })
        hneg2).trans
      (congrArg
        (fun l => { a with confirmation_status := ConfirmationStatus.confirmed } :: l)
        (updateFirst_cons_pos b others
          (fun it => it.voice_session_id == vs.id && it.id == b.id)
          (fun it => { it with confirmation_status := ConfirmationStatus.confirmed })
          hpb))
  have step1 : confirmStep vs.id fs.id
      ⟨a :: b :: others, w.comments, w.nextId, [], [], none⟩ a.id =
      ⟨{ a with confirmation_status := ConfirmationStatus.confirmed } :: b :: others,
        w.comments, w.nextId, [a.content], [], none⟩ := by
    unfold confirmStep
    dsimp only
    rw [hfind1]
    dsimp only
    rw [hupd1, haty]
    rfl
  have step2 : confirmStep vs.id fs.id
      ⟨{ a with confirmation_status := ConfirmationStatus.confirmed } :: b :: others,
        w.comments, w.nextId, [a.content], [], none⟩ b.id =
      ⟨{ a with confirmation_status := ConfirmationStatus.confirmed } ::
         { b with confirmation_status := ConfirmationStatus.confirmed } :: others,
        w.comments ++ [⟨w.nextId, fs.id, ht, so, eo, b.content, none⟩],
        w.nextId + 1, [a.content], [], none⟩ := by
    unfold confirmStep
    dsimp only
    rw [hfind2]
    dsimp only
    rw [hupd2, hbty]
    dsimp only
    rw [hbh, hbs, hbe]
    dsimp only
    rw [if_pos hht]
  unfold confirm_feedback
  rw [hvs]
  dsimp only
  rw [hfs]
  dsimp only
  rw [hext]
  dsimp only [List.foldl]
  rw [step1, step2]
  exact ⟨_, _, rfl, rfl, rfl, _, rfl,
    foldConfirmedSession_overall_isSome fs _ (by simp),
    foldConfirmedSession_status fs _⟩

/-- Witness for the amended C3 on `c3GoodWorld`. -/
theorem confirm_folding_amended_witness :
    ∃ w' res,
      confirm_feedback 2 ⟨[3, 4], []⟩ c3GoodWorld = .ok (w', res) ∧
      w'.comments = c3GoodWorld.comments ++
        [⟨5, 1, "flowery", 4, 11, "too flowery", none⟩] ∧
      w'.extracted =
        { (⟨3, 2, FeedbackType.overall, "Strong imagery overall", none, none,
            none, ConfirmationStatus.pending⟩ : ExtractedFeedback) with
          confirmation_status := ConfirmationStatus.confirmed } ::
        { (⟨4, 2, FeedbackType.inline_comment, "too flowery", some "flowery",
            some 4, some 11, ConfirmationStatus.pending⟩ : ExtractedFeedback) with
          confirmation_status := ConfirmationStatus.confirmed } :: [] ∧
      (∃ fs', w'.sessions = updateFirst c3GoodWorld.sessions
          (fun s => s.id == (1 : Nat)) (fun _ => fs') ∧
        fs'.overall_feedback.isSome = true ∧
        fs'.status = FeedbackStatus.submitted) := by
  exact confirm_folding_amended c3GoodWorld
    ⟨2, 1, VoiceSessionStatus.active⟩
    ⟨1, 1, none, none, FeedbackStatus.in_progress⟩
    ⟨3, 2, FeedbackType.overall, "Strong imagery overall", none, none, none,
      ConfirmationStatus.pending⟩
    ⟨4, 2, FeedbackType.inline_comment, "too flowery", some "flowery", some 4,
      some 11, ConfirmationStatus.pending⟩
    [] "flowery" 4 11 (by decide) (by decide) (by decide) (by decide)
    (by decide) (by decide) (by decide) (by decide) (by decide) (by decide)
    (by decide) (by decide) (by decide) (by decide)

theorem updateFirst_found_eq (l : List α) (p : α → Bool) (a : α)
    (h : l.find? p = some a) (f : α → α) (hf : f a = a) :
    updateFirst l p f = l := by
  induction l with
  | nil => rfl
  | cons x t ih =>
    cases hpx : p x with
    | true =>
      rw [List.find?_cons_of_pos t hpx] at h
      have hax : x = a := Option.some.inj h
      rw [updateFirst_cons_pos x t p f hpx, hax, hf]
    | false =>
      have ht : t.find? p = some a := by
        rw [List.find?_cons_of_neg t (by simp [hpx])] at h
        exact h
      rw [updateFirst_cons_neg x t p f hpx, ih ht]

theorem latest_foldl_isSome (l : List GuideVersion) (g : GuideVersion) :
    (l.foldl (fun acc x =>
      match acc with
      | none => some x
      | some m => if x.version > m.version then some x else some m)
      (some g)).isSome = true := by
  induction l generalizing g with
  | nil => rfl
  | cons x t ih =>
    dsimp only [List.foldl]
    split
    · exact ih x
    · exact ih g

theorem get_current_guide_fst (w : World) (h : w.guides ≠ []) :
    (get_current_guide w).1 = w := by
  obtain ⟨g, t, hw⟩ : ∃ g t, w.guides = g :: t := by
    cases hgl : w.guides with
    | nil => exact absurd hgl h
    | cons g t => exact ⟨g, t, rfl⟩
  unfold get_current_guide
  rw [hw]
  dsimp only [List.foldl]
  cases hsome : t.foldl (fun acc x =>
      match acc with
      | none => some x
      | some m => if x.version > m.version then some x else some m)
      (some g) with
  | none =>
    have := latest_foldl_isSome t g
    rw [hsome] at this
    exact Bool.noConfusion this
  | some m => rfl

/-- C9: the poem and guide decisions of `review` are independent: with
`acceptPoem = false` and `acceptGuideChanges = true` on a revision whose
proposal exists (non-null and, as the code tests truthiness, non-empty),
the review sets `poemAccepted = -1` and leaves every Poem row — status
and content — unchanged, while still setting `guideChangesAccepted = 1`
and appending one new GuideVersion whose content is the current guide
plus the (possibly edited) proposed changes, at version `max + 1`. -/
theorem review_poem_and_guide_decisions_independent
    (w : World) (rid : Nat) (review : RevisionReview)
    (r : Revision) (p : Poem) (g : String)
    (hr : w.revisions.find? (fun x => x.id == rid) = some r)
    (hp : w.poems.find? (fun x => x.id == r.original_poem_id) = some p)
    (hprop : r.proposed_guide_changes = some g) (hg : g ≠ "")
    (hap : review.accept_poem = false) (hag : review.accept_guide_changes = true)
    (hguides : w.guides ≠ []) :
    ∃ w' rev2,
      review_revision rid review w = .ok (w', rev2) ∧
      rev2.poem_accepted = -1 ∧
      rev2.guide_changes_accepted = 1 ∧
      rev2.revised_poem = r.revised_poem ∧
      w'.poems = w.poems ∧
      w'.guides = w.guides ++
        [⟨w.nextId,
          (get_current_guide w).2.1 ++ "\n\n" ++
            (match review.edited_guide_changes with
             | some e => if e ≠ "" then e else g
             | none => g),
          (w.guides.foldl (fun m x => max m x.version) 0) + 1,
          some ("Applied changes from revision #" ++ toString rid)⟩] := by
  have hpid : p.id = r.original_poem_id := by
    have := List.find?_some hp
    simpa using this
  have hp' : w.poems.find? (fun x => x.id == p.id) = some p := by
    rw [← hpid] at hp
    exact hp
  unfold review_revision
  rw [hr]
  dsimp only
  rw [hp]
  dsimp only
  have hnotap : ¬ (review.accept_poem = true) := by simp [hap]
  rw [hprop, if_neg hnotap]
  dsimp only
  have hcond : (review.accept_guide_changes && (g != "")) = true := by
    rw [hag]
    simp [hg]
  rw [if_pos hcond]
  dsimp only
  rw [get_current_guide_fst w hguides]
  unfold update_guide
  dsimp only
  refine ⟨_, _, rfl, rfl, rfl, rfl, ?_, rfl⟩
  exact updateFirst_found_eq w.poems _ p hp' _ rfl

/-- Witness for C9: reject the poem, accept the guide delta, no edits. -/
theorem review_decisions_independent_witness :
    ∃ w' rev2,
      review_revision 3 ⟨false, true, none, none⟩ c9World = .ok (w', rev2) ∧
      rev2.poem_accepted = -1 ∧
      rev2.guide_changes_accepted = 1 ∧
      rev2.revised_poem = "The breath of the city" ∧
      w'.poems = c9World.poems ∧
      w'.guides = c9World.guides ++
        [⟨c9World.nextId,
          (get_current_guide c9World).2.1 ++ "\n\n" ++
            "## SME Feedback Rules\n- Never use the word \"heartbeat\"",
          (c9World.guides.foldl (fun m x => max m x.version) 0) + 1,
          some ("Applied changes from revision #" ++ toString 3)⟩] := by
  exact review_poem_and_guide_decisions_independent c9World 3
    ⟨false, true, none, none⟩
    ⟨3, 2, 1, "The breath of the city",
      some "## SME Feedback Rules\n- Never use the word \"heartbeat\"",
      none, 0, 0⟩
    ⟨1, "p", "The heartbeat of the city", 1, PoemStatus.under_review⟩
    "## SME Feedback Rules\n- Never use the word \"heartbeat\""
    (by decide) (by decide) (by decide) (by decide) (by decide) (by decide)
    (by decide)

end Feedback

